import Mathlib

/-!
Shallow embedding of the interactive behavior in `src/App.tsx`:
the countdown timer (`CountdownTimer`), the scroll-reveal visibility hook
(`useScrollReveal`), and the FAQ disclosure toggle (`FAQItem`).

JS numbers are modelled as `Int` (so nonnegativity is a real property, not a
typing artifact); JS strings as `String`; a thrown JS error as `Except`.
-/

/-- The `timeLeft` state of `CountdownTimer`: `{ hours, minutes, seconds }`. -/
structure TimeLeft where
  hours : Int
  minutes : Int
  seconds : Int
deriving DecidableEq

/-- The `setTimeLeft` updater passed to `setInterval` in `CountdownTimer`
(src/App.tsx lines 96-101):
`if (prev.seconds > 0) return { ...prev, seconds: prev.seconds - 1 };`
`if (prev.minutes > 0) return { ...prev, minutes: prev.minutes - 1, seconds: 59 };`
`if (prev.hours > 0) return { hours: prev.hours - 1, minutes: 59, seconds: 59 };`
`return prev;` -/
def tick (prev : TimeLeft) : TimeLeft :=
  if prev.seconds > 0 then { prev with seconds := prev.seconds - 1 }
  else if prev.minutes > 0 then { prev with minutes := prev.minutes - 1, seconds := 59 }
  else if prev.hours > 0 then { hours := prev.hours - 1, minutes := 59, seconds := 59 }
  else prev

/-- The initial `useState` value of `CountdownTimer` (src/App.tsx line 92). -/
def initialTimeLeft : TimeLeft := { hours := 1, minutes := 24, seconds := 59 }

/-- Total number of seconds represented by a `TimeLeft` value. -/
def toSeconds (t : TimeLeft) : Int :=
  t.hours * 3600 + t.minutes * 60 + t.seconds

/-- All three fields are nonnegative. -/
def TimeLeft.nonneg (t : TimeLeft) : Prop :=
  0 ≤ t.hours ∧ 0 ≤ t.minutes ∧ 0 ≤ t.seconds

instance (t : TimeLeft) : Decidable t.nonneg := by
  unfold TimeLeft.nonneg; infer_instance

/-- The tick step as written in the spec's case analysis (section 4.2),
to be compared against `tick`, which is transcribed from the source. -/
def tickSpec (t : TimeLeft) : TimeLeft :=
  if t.seconds > 0 then { hours := t.hours, minutes := t.minutes, seconds := t.seconds - 1 }
  else if t.minutes > 0 then { hours := t.hours, minutes := t.minutes - 1, seconds := 59 }
  else if t.hours > 0 then { hours := t.hours - 1, minutes := 59, seconds := 59 }
  else t

/-- JS `String.prototype.padStart(targetLength, pad)`: left-pad with copies of
`pad` until the length reaches `targetLength` (unchanged if already long enough). -/
def padStart (s : String) (targetLength : Nat) (pad : Char) : String :=
  if targetLength ≤ s.length then s
  else String.mk (List.replicate (targetLength - s.length) pad) ++ s

/-- `CountdownTimer`'s `format` (src/App.tsx line 106):
`(n) => n.toString().padStart(2, '0')`. -/
def format (n : Nat) : String := padStart (Nat.repr n) 2 '0'

/-- The spec's description of the rendering (section 4.2, "Formatting"):
the decimal rendering, left-padded with a single zero when shorter than two
digits. Compared against `format`, which is transcribed from the source. -/
def formatSpec (n : Nat) : String :=
  if (Nat.repr n).length < 2 then "0" ++ Nat.repr n else Nat.repr n

-- Visibility trigger (`useScrollReveal`, src/App.tsx lines 52-74)

/-- One entry passed to the `IntersectionObserver` callback; the code reads
only its `isIntersecting` field. -/
structure ObserverEntry where
  isIntersecting : Bool
deriving DecidableEq

/-- The observer callback of `useScrollReveal` (src/App.tsx lines 57-63),
acting on the `isVisible` state: `entries.forEach(entry => { if
(entry.isIntersecting) setIsVisible(true); })`. -/
def observerCallback (isVisible : Bool) (entries : List ObserverEntry) : Bool :=
  entries.foldl (fun v e => if e.isIntersecting then true else v) isVisible

/-- Initial `useState` value of `useScrollReveal` (src/App.tsx line 53). -/
def initialIsVisible : Bool := false

/-- The `isVisible` flag after a sequence of observer-callback invocations,
each delivering one batch of entries, starting from the mount state. -/
def runReveal (batches : List (List ObserverEntry)) : Bool :=
  batches.foldl observerCallback initialIsVisible

/-- A JS runtime error raised by the embedded code. -/
inductive JsError where
  | referenceError
deriving DecidableEq

/-- The host environment as seen by `useScrollReveal`: whether the
`IntersectionObserver` global is defined. -/
structure RevealHost where
  hasIntersectionObserver : Bool

/-- The mount effect of `useScrollReveal` (src/App.tsx lines 56-71): it
unconditionally evaluates `new IntersectionObserver(...)`, which in a host
without that global throws a `ReferenceError`; there is no guard or fallback
in the code. On success it returns the `isVisible` state after mounting
(still the initial value: no callback has run yet). -/
def mountReveal (host : RevealHost) : Except JsError Bool :=
  if host.hasIntersectionObserver then Except.ok initialIsVisible
  else Except.error JsError.referenceError

-- Disclosure toggle (`FAQItem`, src/App.tsx lines 168-188)

/-- The `onClick` handler of `FAQItem` (src/App.tsx line 173):
`setIsOpen(!isOpen)`. -/
def toggle (isOpen : Bool) : Bool := !isOpen

/-- A list of independent `FAQItem` states with item `i` toggled: each item
owns its own `useState`, so a click on item `i` applies `toggle` to that
item's state only. -/
def toggleAt : List Bool → Nat → List Bool
  | [], _ => []
  | b :: rest, 0 => toggle b :: rest
  | b :: rest, n + 1 => b :: toggleAt rest n

-- Countdown timer lifecycle (mount / interval / cleanup)

/-- A mounted `CountdownTimer` instance: its `timeLeft` state and whether the
interval acquired by `setInterval` at mount is still registered with the
host scheduler. -/
structure ClockInstance where
  timeLeft : TimeLeft
  timerActive : Bool
deriving DecidableEq

/-- Mounting `CountdownTimer` (src/App.tsx lines 91-104): `useState` gives
the fixed constant initial value and the mount effect registers the interval. -/
def mountClock : ClockInstance := { timeLeft := initialTimeLeft, timerActive := true }

/-- Events delivered to a clock instance by the host event loop: a firing of
its interval timer, or the unmount (effect cleanup). -/
inductive ClockEvent where
  | timerFire
  | unmount
deriving DecidableEq

/-- One event-loop step for a clock instance. The host fires the interval
callback only while the interval is registered; the cleanup function returned
by the effect (src/App.tsx line 103) runs `clearInterval(timer)`
unconditionally, deregistering the interval. -/
def clockStep (st : ClockInstance) : ClockEvent → ClockInstance
  | ClockEvent.timerFire =>
      if st.timerActive then { st with timeLeft := tick st.timeLeft } else st
  | ClockEvent.unmount => { st with timerActive := false }

/-- Run a clock instance through a sequence of events. -/
def clockRun (st : ClockInstance) (evs : List ClockEvent) : ClockInstance :=
  evs.foldl clockStep st

-- Helper lemmas

theorem tick_nonneg {t : TimeLeft} (h : t.nonneg) : (tick t).nonneg := by
  obtain ⟨hh, hm, hs⟩ := h
  obtain ⟨a, b, c⟩ := t
  simp only [TimeLeft.nonneg, tick] at *
  split <;> [skip; split] <;> [skip; skip; split] <;> dsimp only <;> omega

theorem tick_toSeconds {t : TimeLeft} (h : t.nonneg) :
    toSeconds (tick t) = max (toSeconds t - 1) 0 := by
  obtain ⟨hh, hm, hs⟩ := h
  obtain ⟨a, b, c⟩ := t
  simp only [TimeLeft.nonneg, tick, toSeconds] at *
  split <;> [skip; split] <;> [skip; skip; split] <;> dsimp only <;> omega

theorem tick_zero : tick { hours := 0, minutes := 0, seconds := 0 } =
    { hours := 0, minutes := 0, seconds := 0 } := by
  decide

theorem tick_iterate_zero (k : Nat) :
    tick^[k] { hours := 0, minutes := 0, seconds := 0 } =
    { hours := 0, minutes := 0, seconds := 0 } := by
  induction k with
  | zero => rfl
  | succ n ih => rw [Function.iterate_succ_apply, tick_zero, ih]

theorem tick_iterate_total (n : Nat) :
    ∀ t : TimeLeft, t.nonneg → (toSeconds t).toNat = n →
      tick^[n] t = { hours := 0, minutes := 0, seconds := 0 } := by
  induction n with
  | zero =>
      intro t ht htot
      obtain ⟨hh, hm, hs⟩ := ht
      obtain ⟨a, b, c⟩ := t
      simp only [toSeconds] at htot
      dsimp only at hh hm hs htot
      have hfields : a = 0 ∧ b = 0 ∧ c = 0 := by omega
      obtain ⟨h1, h2, h3⟩ := hfields
      simp [h1, h2, h3, Function.iterate_zero]
  | succ m ih =>
      intro t ht htot
      rw [Function.iterate_succ_apply]
      apply ih (tick t) (tick_nonneg ht)
      have h1 := tick_toSeconds ht
      omega

theorem observerCallback_cons (v : Bool) (e : ObserverEntry) (es : List ObserverEntry) :
    observerCallback v (e :: es) =
      observerCallback (if e.isIntersecting then true else v) es := rfl

theorem observerCallback_true (entries : List ObserverEntry) :
    observerCallback true entries = true := by
  induction entries with
  | nil => rfl
  | cons e es ih => rw [observerCallback_cons]; split <;> exact ih

theorem observerCallback_of_mem {entries : List ObserverEntry} {e : ObserverEntry}
    (he : e ∈ entries) (hi : e.isIntersecting = true) (v : Bool) :
    observerCallback v entries = true := by
  induction he generalizing v with
  | head es =>
      rw [observerCallback_cons, hi]
      simp only [if_pos]
      exact observerCallback_true es
  | tail b hmem ih =>
      rw [observerCallback_cons]
      exact ih _

theorem observerCallback_quiet {entries : List ObserverEntry}
    (h : ∀ x ∈ entries, x.isIntersecting = false) (v : Bool) :
    observerCallback v entries = v := by
  induction entries with
  | nil => rfl
  | cons a es ih =>
      rw [observerCallback_cons, h a (List.mem_cons_self a es)]
      exact ih (fun x hx => h x (List.mem_cons_of_mem a hx))

theorem foldl_observerCallback_true (batches : List (List ObserverEntry)) :
    batches.foldl observerCallback true = true := by
  induction batches with
  | nil => rfl
  | cons b bs ih => rw [List.foldl_cons, observerCallback_true]; exact ih

theorem foldl_observerCallback_quiet {batches : List (List ObserverEntry)}
    (h : ∀ b ∈ batches, ∀ x ∈ b, x.isIntersecting = false) (v : Bool) :
    batches.foldl observerCallback v = v := by
  induction batches with
  | nil => rfl
  | cons b bs ih =>
      rw [List.foldl_cons, observerCallback_quiet (h b (List.mem_cons_self b bs))]
      exact ih (fun c hc => h c (List.mem_cons_of_mem b hc))

theorem toggle_toggle (b : Bool) : toggle (toggle b) = b := by
  cases b <;> rfl

theorem toggleAt_toggleAt (l : List Bool) : ∀ i, toggleAt (toggleAt l i) i = l := by
  induction l with
  | nil => intro i; rfl
  | cons b rest ih =>
      intro i
      cases i with
      | zero => simp [toggleAt, toggle_toggle]
      | succ n => simp [toggleAt, ih n]

theorem toggleAt_getElem?_ne (l : List Bool) :
    ∀ i j, i ≠ j → (toggleAt l i)[j]? = l[j]? := by
  induction l with
  | nil => intro i j _; rfl
  | cons b rest ih =>
      intro i j hij
      cases i with
      | zero =>
          cases j with
          | zero => exact absurd rfl hij
          | succ m => simp [toggleAt]
      | succ n =>
          cases j with
          | zero => simp [toggleAt]
          | succ m => simp [toggleAt, ih n m (fun h => hij (by rw [h]))]

theorem clockStep_fire_inactive {st : ClockInstance} (h : st.timerActive = false) :
    clockStep st ClockEvent.timerFire = st := by
  simp [clockStep, h]

theorem clockRun_inactive {st : ClockInstance} (h : st.timerActive = false)
    {evs : List ClockEvent} (hevs : ∀ e ∈ evs, e = ClockEvent.timerFire) :
    clockRun st evs = st := by
  induction evs with
  | nil => rfl
  | cons e es ih =>
      have he : e = ClockEvent.timerFire := hevs e (List.mem_cons_self e es)
      subst he
      unfold clockRun
      rw [List.foldl_cons, clockStep_fire_inactive h]
      exact ih (fun x hx => hevs x (List.mem_cons_of_mem _ hx))

theorem format_formatSpec_aux :
    ∀ m : Fin 60, (format m.val).length = 2 ∧ format m.val = formatSpec m.val := by
  decide

-- Claim theorems

/-- C1: Countdown Clock termination: for every initial state (H, M, S) with
H, M, S ≥ 0, applying `tick` exactly H*3600 + M*60 + S times yields the state
(0, 0, 0), and every further application leaves the state at (0, 0, 0). -/
theorem countdown_termination (H M S : Int)
    (hH : 0 ≤ H) (hM : 0 ≤ M) (hS : 0 ≤ S) (k : Nat) :
    tick^[(H * 3600 + M * 60 + S).toNat] { hours := H, minutes := M, seconds := S } =
      { hours := 0, minutes := 0, seconds := 0 } ∧
    tick^[(H * 3600 + M * 60 + S).toNat + k] { hours := H, minutes := M, seconds := S } =
      { hours := 0, minutes := 0, seconds := 0 } := by
  have h1 : tick^[(H * 3600 + M * 60 + S).toNat] { hours := H, minutes := M, seconds := S } =
      ({ hours := 0, minutes := 0, seconds := 0 } : TimeLeft) :=
    tick_iterate_total _ _ ⟨hH, hM, hS⟩ rfl
  refine ⟨h1, ?_⟩
  rw [Nat.add_comm, Function.iterate_add_apply, h1, tick_iterate_zero]

/-- Witness for C1 at the concrete initial state (0, 0, 3) with k = 1. -/
theorem countdown_termination_witness :
    tick^[((0:Int) * 3600 + 0 * 60 + 3).toNat] { hours := 0, minutes := 0, seconds := 3 } =
      { hours := 0, minutes := 0, seconds := 0 } ∧
    tick^[((0:Int) * 3600 + 0 * 60 + 3).toNat + 1] { hours := 0, minutes := 0, seconds := 3 } =
      { hours := 0, minutes := 0, seconds := 0 } :=
  countdown_termination 0 0 3 (by decide) (by decide) (by decide) 1

/-- C2: one tick produces exactly the result of the spec's case analysis:
decrement seconds if positive, else borrow from minutes, else from hours,
else leave the state unchanged. -/
theorem tick_matches_spec (t : TimeLeft) : tick t = tickSpec t := rfl

/-- C3: the visibility flag is false before any intersection is delivered
(here: after any batches none of whose entries intersect), becomes true at the
first batch containing an intersecting entry, and remains true through every
subsequent sequence of batches, intersecting or not. -/
theorem scrollReveal_one_way (pre : List (List ObserverEntry))
    (batch : List ObserverEntry) (post : List (List ObserverEntry))
    (e : ObserverEntry) (hpre : ∀ b ∈ pre, ∀ x ∈ b, x.isIntersecting = false)
    (he : e ∈ batch) (hi : e.isIntersecting = true) :
    runReveal pre = false ∧ runReveal (pre ++ batch :: post) = true := by
  have h0 : runReveal pre = false := foldl_observerCallback_quiet hpre initialIsVisible
  refine ⟨h0, ?_⟩
  unfold runReveal at *
  rw [List.foldl_append, List.foldl_cons, h0, observerCallback_of_mem he hi,
    foldl_observerCallback_true]

/-- Witness for C3: a quiet batch, then a batch with an intersecting entry,
then another quiet batch; the flag ends true. -/
theorem scrollReveal_one_way_witness :
    runReveal [[{ isIntersecting := false }]] = false ∧
    runReveal ([[{ isIntersecting := false }]] ++
      [{ isIntersecting := false }, { isIntersecting := true }] ::
      [[{ isIntersecting := false }]]) = true :=
  scrollReveal_one_way [[{ isIntersecting := false }]]
    [{ isIntersecting := false }, { isIntersecting := true }]
    [[{ isIntersecting := false }]] { isIntersecting := true }
    (by decide) (by decide) rfl

/-- C4 counterexample: in a host without the intersection-detection
capability, mounting `useScrollReveal` throws a reference error rather than
succeeding with the flag behaving as true. -/
theorem mountReveal_absent_not_visible :
    mountReveal { hasIntersectionObserver := false } =
      Except.error JsError.referenceError ∧
    mountReveal { hasIntersectionObserver := false } ≠ Except.ok true := by
  refine ⟨rfl, fun h => ?_⟩
  exact Except.noConfusion h

/-- C4 (amended): when the intersection-detection capability is absent, the
mount effect of the Visibility Trigger fails with a reference error — the code
has no fallback and does not degrade to reporting the region as visible. -/
theorem mountReveal_absent_errors (host : RevealHost)
    (h : host.hasIntersectionObserver = false) :
    mountReveal host = Except.error JsError.referenceError := by
  simp [mountReveal, h]

/-- Witness for the amended C4 at a concrete capability-less host. -/
theorem mountReveal_absent_errors_witness :
    mountReveal { hasIntersectionObserver := false } =
      Except.error JsError.referenceError :=
  mountReveal_absent_errors { hasIntersectionObserver := false } rfl

/-- C5: toggling FAQ item i twice returns the list to its original state, and
toggling item i leaves every item j ≠ i unchanged. -/
theorem faq_toggle_independent (l : List Bool) (i j : Nat) (hij : i ≠ j) :
    toggleAt (toggleAt l i) i = l ∧ (toggleAt l i)[j]? = l[j]? :=
  ⟨toggleAt_toggleAt l i, toggleAt_getElem?_ne l i j hij⟩

/-- Witness for C5 on a two-item list, toggling item 0 and observing item 1. -/
theorem faq_toggle_independent_witness :
    toggleAt (toggleAt [false, true] 0) 0 = [false, true] ∧
    (toggleAt [false, true] 0)[1]? = [false, true][1]? :=
  faq_toggle_independent [false, true] 0 1 (by decide)

/-- C6: for a state with 0 ≤ minutes ≤ 59, 0 ≤ seconds ≤ 59 and hours ≥ 0,
`tick` preserves these bounds, produces no negative field, and never increases
the total hours*3600 + minutes*60 + seconds. -/
theorem tick_preserves_bounds (t : TimeLeft)
    (hh : 0 ≤ t.hours) (hm0 : 0 ≤ t.minutes) (hm1 : t.minutes ≤ 59)
    (hs0 : 0 ≤ t.seconds) (hs1 : t.seconds ≤ 59) :
    0 ≤ (tick t).hours ∧ 0 ≤ (tick t).minutes ∧ (tick t).minutes ≤ 59 ∧
      0 ≤ (tick t).seconds ∧ (tick t).seconds ≤ 59 ∧
      toSeconds (tick t) ≤ toSeconds t := by
  obtain ⟨a, b, c⟩ := t
  dsimp only at hh hm0 hm1 hs0 hs1
  simp only [tick, toSeconds]
  split <;> [skip; split] <;> [skip; skip; split] <;> dsimp only <;> omega

/-- Witness for C6 at the source's fixed initial state (1, 24, 59). -/
theorem tick_preserves_bounds_witness :
    0 ≤ (tick initialTimeLeft).hours ∧ 0 ≤ (tick initialTimeLeft).minutes ∧
      (tick initialTimeLeft).minutes ≤ 59 ∧ 0 ≤ (tick initialTimeLeft).seconds ∧
      (tick initialTimeLeft).seconds ≤ 59 ∧
      toSeconds (tick initialTimeLeft) ≤ toSeconds initialTimeLeft :=
  tick_preserves_bounds initialTimeLeft (by decide) (by decide) (by decide)
    (by decide) (by decide)

/-- C7: for every n with n ≤ 59, `format n` is a string of exactly two
characters, equal to the decimal rendering of n left-padded with a zero. -/
theorem format_two_digit (n : Nat) (h : n ≤ 59) :
    (format n).length = 2 ∧ format n = formatSpec n :=
  format_formatSpec_aux ⟨n, by omega⟩

/-- Witness for C7 at n = 5. -/
theorem format_two_digit_witness :
    (format 5).length = 2 ∧ format 5 = formatSpec 5 :=
  format_two_digit 5 (by decide)

/-- C8: unmounting a Countdown Clock instance deregisters its interval
unconditionally, and every subsequent timer firing leaves the instance — in
particular its displayed value — unchanged: no tick fires after disposal. -/
theorem clock_no_tick_after_dispose (st : ClockInstance) (evs : List ClockEvent)
    (hevs : ∀ e ∈ evs, e = ClockEvent.timerFire) :
    (clockStep st ClockEvent.unmount).timerActive = false ∧
    clockRun (clockStep st ClockEvent.unmount) evs = clockStep st ClockEvent.unmount ∧
    (clockRun (clockStep st ClockEvent.unmount) evs).timeLeft = st.timeLeft := by
  have h1 : (clockStep st ClockEvent.unmount).timerActive = false := rfl
  have h2 := clockRun_inactive h1 hevs
  exact ⟨h1, h2, by rw [h2]; exact rfl⟩

/-- Witness for C8: a freshly mounted clock, unmounted, then hit by two
pending timer firings. -/
theorem clock_no_tick_after_dispose_witness :
    (clockStep mountClock ClockEvent.unmount).timerActive = false ∧
    clockRun (clockStep mountClock ClockEvent.unmount)
        [ClockEvent.timerFire, ClockEvent.timerFire] =
      clockStep mountClock ClockEvent.unmount ∧
    (clockRun (clockStep mountClock ClockEvent.unmount)
        [ClockEvent.timerFire, ClockEvent.timerFire]).timeLeft =
      mountClock.timeLeft :=
  clock_no_tick_after_dispose mountClock [ClockEvent.timerFire, ClockEvent.timerFire]
    (by decide)

/-- C9: every freshly mounted Countdown Clock starts from the fixed constant
state hours = 1, minutes = 24, seconds = 59 (the mount takes no input, so
nothing is carried over and no external clock is consulted). -/
theorem clock_initial_value :
    mountClock.timeLeft = { hours := 1, minutes := 24, seconds := 59 } ∧
    mountClock.timerActive = true :=
  ⟨rfl, rfl⟩

/-- C10: with toSeconds(h, m, s) = h*3600 + m*60 + s, for every state with
nonnegative fields the borrow-based tick is exactly truncated decrement-by-one
on the total: toSeconds (tick t) = max (toSeconds t - 1) 0. -/
theorem tick_refines_truncated_decrement (t : TimeLeft)
    (hh : 0 ≤ t.hours) (hm : 0 ≤ t.minutes) (hs : 0 ≤ t.seconds) :
    toSeconds (tick t) = max (toSeconds t - 1) 0 :=
  tick_toSeconds ⟨hh, hm, hs⟩

/-- Witness for C10 at the state (1, 0, 0), where the tick borrows through
both minutes and hours. -/
theorem tick_refines_truncated_decrement_witness :
    toSeconds (tick { hours := 1, minutes := 0, seconds := 0 }) =
      max (toSeconds { hours := 1, minutes := 0, seconds := 0 } - 1) 0 :=
  tick_refines_truncated_decrement { hours := 1, minutes := 0, seconds := 0 }
    (by decide) (by decide) (by decide)
